import Mathlib

/-!
Verification of the DynEL exception-routing engine against its sources.

The definitions below are a shallow embedding of `src/dynel/config.py` and
`src/dynel/exception_handling.py`.  Python dicts are association lists that
preserve insertion order; Python values appearing in configs and log context
are the inductive `PyVal`; the non-deterministic environment probed by
`handle_exception` (timestamp, caller locals, system info, environment
variables) is passed in explicitly as a `HostEnv`; the loguru logger is a
`LoggerState` (a list of handlers plus the list of emitted records), with
`logger.add` / `logger.remove` / record emission modelled explicitly.
-/

namespace DynEL

/-- Python values as they occur in DynEL config documents, log-context
dictionaries and `add_metadata` payloads.  Numeric literals are modelled by
`int`; `null` is Python `None`. -/
inductive PyVal where
  | str (s : String)
  | int (n : Int)
  | bool (b : Bool)
  | null
  | list (l : List PyVal)
  | dict (d : List (String × PyVal))
deriving Repr

/-- A Python dict with string keys, as an insertion-ordered association list. -/
abbrev PyDict (V : Type) := List (String × V)

/-- `d.get(k)` / `d[k]`: the value of the first (hence only, for dicts built
key-by-key) binding of `k`. -/
def pyGet? {V : Type} (d : PyDict V) (k : String) : Option V :=
  (d.find? (fun p => p.1 == k)).map (fun p => p.2)

/-- `d[k] = v`: update the binding in place when `k` is present, otherwise
append it (Python dicts preserve insertion order). -/
def pySet {V : Type} (d : PyDict V) (k : String) (v : V) : PyDict V :=
  if d.any (fun p => p.1 == k) then
    d.map (fun p => if p.1 == k then (k, v) else p)
  else
    d ++ [(k, v)]

/-- `d |= e` (also `\x7b**d, **e\x7d`): fold the bindings of `e` into `d`,
right operand winning on key clashes. -/
def pyUnion {V : Type} (d e : PyDict V) : PyDict V :=
  e.foldl (fun acc p => pySet acc p.1 p.2) d

/-- `k in d`. -/
def pyHasKey {V : Type} (d : PyDict V) (k : String) : Bool :=
  d.any (fun p => p.1 == k)

/-- `ContextLevel` from `config.py` lines 12-22. -/
inductive ContextLevel where
  | MINIMAL
  | MEDIUM
  | DETAILED
deriving DecidableEq, Repr

/-- A raised Python exception instance: the simple name of its concrete class
(`type(error).__name__`), the simple names of all classes in its MRO (used to
decide `isinstance`), and its message. -/
structure PyException where
  className : String
  mro : List String
  message : String
deriving DecidableEq, Repr

/-- `isinstance(error, C)` for the exception class named `C`: holds exactly
when `C` is among the classes of the instance's MRO. -/
def isInstanceOf (e : PyException) (c : String) : Bool :=
  e.mro.contains c

/-- One behavior bundle, i.e. one value of the `behaviors` dict of a rule
entry (key `"default"` or an exception type name).  The only keys the code
ever reads are `add_metadata` and `log_to_specific_file`
(`exception_handling.py` lines 98 and 113); their values are arbitrary Python
values, whose shape `handle_exception` re-checks at use sites. -/
structure BehaviorActions where
  add_metadata : Option PyVal
  log_to_specific_file : Option PyVal
deriving Repr

/-- The empty behavior dict `\x7b\x7d`. -/
def BehaviorActions.empty : BehaviorActions := ⟨none, none⟩

/-- `\x7b**d, **s\x7d` restricted to the two recognized action keys: a key
present in `s` overrides the same key of `d`. -/
def BehaviorActions.merge (d s : BehaviorActions) : BehaviorActions :=
  ⟨(s.add_metadata).orElse (fun _ => d.add_metadata),
   (s.log_to_specific_file).orElse (fun _ => d.log_to_specific_file)⟩

/-- One parsed entry of `config.EXCEPTION_CONFIG` as produced by
`_parse_exception_config` (`config.py` lines 178-183): resolved exception
classes (by name, in declaration order), a custom message, tags, and the
behaviors dict keyed by `"default"` or an exception simple name. -/
structure RuleEntry where
  exceptions : List String
  custom_message : String
  tags : List String
  behaviors : PyDict BehaviorActions
deriving Repr

/-- `DynelConfig` state as read by `handle_exception` (`config.py`
lines 98-112).  The two format strings only affect text rendering of records,
which this model does not observe, so they are omitted. -/
structure DynelConfig where
  CUSTOM_CONTEXT_LEVEL : ContextLevel
  DEBUG_MODE : Bool
  FORMATTING_ENABLED : Bool
  PANIC_MODE : Bool
  EXCEPTION_CONFIG : PyDict RuleEntry

/-- Outcome of probing the caller frame's locals
(`exception_handling.py` lines 41-50): `available s` when `f_locals` is
truthy (non-empty) and `str()` succeeds with rendering `s`; `strError` when
`str()` raises; `unavailable` when the frame is missing or its locals dict is
empty (falsy). -/
inductive LocalVarsProbe where
  | available (s : String)
  | strError
  | unavailable
deriving DecidableEq, Repr

/-- Outcomes of the DETAILED-level system probes (`exception_handling.py`
lines 52-62): `memCpu` is `some (freeMemory, cpuCount)` when the two
`os.sysconf` calls succeed (`os.cpu_count()` may itself return `None`), and
`none` when they raise `OSError`/`AttributeError`; `env` is the environment
snapshot, or `none` when reading `os.environ` raises. -/
structure SysProbes where
  memCpu : Option (Int × Option Int)
  env : Option (PyDict String)
deriving Repr

/-- The non-deterministic host inputs of one `handle_exception` call. -/
structure HostEnv where
  timestamp : String
  localVars : LocalVarsProbe
  sys : SysProbes
deriving Repr

/-- The string stored under `local_vars` for a given probe outcome
(`exception_handling.py` lines 44-50). -/
def localVarsString : LocalVarsProbe → String
  | .available s => s
  | .strError => "Error converting local_vars to string"
  | .unavailable => "Local variables information unavailable"

/-- Context assembly, `exception_handling.py` lines 38-63: always a
timestamp; `local_vars` at MEDIUM and DETAILED; at DETAILED additionally the
memory/CPU probe (or a `system_info_error` placeholder) and the environment
snapshot (or an `env_details_error` placeholder), merged in with `|=`. -/
def buildContext (level : ContextLevel) (env : HostEnv) : PyDict PyVal :=
  let ctx : PyDict PyVal := [("timestamp", .str env.timestamp)]
  let ctx :=
    if level = ContextLevel.MEDIUM ∨ level = ContextLevel.DETAILED then
      pySet ctx "local_vars" (.str (localVarsString env.localVars))
    else ctx
  if level = ContextLevel.DETAILED then
    let detailed : PyDict PyVal :=
      match env.sys.memCpu with
      | some (mem, cpu) =>
          pySet (pySet [] "free_memory" (.int mem)) "cpu_count"
            (match cpu with | some n => .int n | none => .null)
      | none =>
          pySet [] "system_info_error"
            (.str "Could not retrieve some system info (memory/CPU)")
    let detailed :=
      match env.sys.env with
      | some e => pySet detailed "env_details" (.dict (e.map (fun p => (p.1, PyVal.str p.2))))
      | none => pySet detailed "env_details_error" (.str "Could not retrieve environment variables")
    pyUnion ctx detailed
  else ctx

/-! ### Rule and behavior resolution (`exception_handling.py` lines 65-92) -/

/-- The loop of lines 75-88: scan the entry's `exceptions` in declaration
order and stop at the first type `c` with `isinstance(error, c)`; `none` when
there is no rule entry or no listed type matches. -/
def matchedType (fc? : Option RuleEntry) (e : PyException) : Option String :=
  match fc? with
  | some fc => fc.exceptions.find? (fun c => isInstanceOf e c)
  | none => none

/-- Line 73: `function_config.get('behaviors', \x7b\x7d).get('default', \x7b\x7d)`,
taken whenever a rule entry exists, matched or not (line 69 initializes it to
`\x7b\x7d`). -/
def defaultBehaviorsOf (fc? : Option RuleEntry) : BehaviorActions :=
  match fc? with
  | some fc => (pyGet? fc.behaviors "default").getD BehaviorActions.empty
  | none => BehaviorActions.empty

/-- Line 84: only on a matched type, the behaviors entry keyed by the
*concrete* class simple name `type(error).__name__`; stays `none` (Python
`None`) when no listed type matched. -/
def specificBehaviorsOf (fc? : Option RuleEntry) (e : PyException) : Option BehaviorActions :=
  match fc? with
  | some fc =>
      match fc.exceptions.find? (fun c => isInstanceOf e c) with
      | some _ => some ((pyGet? fc.behaviors e.className).getD BehaviorActions.empty)
      | none => none
  | none => none

/-- Line 77: the entry's `custom_message`, only on a matched type. -/
def resolvedCustomMessage (fc? : Option RuleEntry) (e : PyException) : Option String :=
  match fc? with
  | some fc =>
      match fc.exceptions.find? (fun c => isInstanceOf e c) with
      | some _ => some fc.custom_message
      | none => none
  | none => none

/-- Line 78: the entry's `tags`, only on a matched type. -/
def resolvedTags (fc? : Option RuleEntry) (e : PyException) : Option (List String) :=
  match fc? with
  | some fc =>
      match fc.exceptions.find? (fun c => isInstanceOf e c) with
      | some _ => some fc.tags
      | none => none
  | none => none

/-- Line 92: `\x7b**default_behaviors, **(specific_behaviors or \x7b\x7d)\x7d`. -/
def appliedBehaviors (fc? : Option RuleEntry) (e : PyException) : BehaviorActions :=
  BehaviorActions.merge (defaultBehaviorsOf fc?)
    ((specificBehaviorsOf fc? e).getD BehaviorActions.empty)

/-- Lines 65 and 86-87: the base message, with the custom-message suffix
appended only when a type matched and the resolved message is truthy
(non-empty). -/
def composeLogMessage (funcName : String) (fc? : Option RuleEntry) (e : PyException) : String :=
  let base := "Exception caught in " ++ funcName
  match resolvedCustomMessage fc? e with
  | some cm => if cm = "" then base else base ++ " - Custom Message: " ++ cm
  | none => base

/-! ### Loguru model

Handlers are sinks with a numeric severity threshold; an emission at level
`l` appends one record per attached handler whose threshold is at most `l`.
`logger.add` returns a fresh handler id; `logger.remove` detaches by id. -/

def levelDEBUG : Nat := 10
def levelINFO : Nat := 20
def levelWARNING : Nat := 30
def levelERROR : Nat := 40
def levelCRITICAL : Nat := 50

structure Handler where
  id : Nat
  sink : String
  minLevel : Nat
deriving DecidableEq, Repr

/-- One record as received by a sink: destination, severity, message, the
bound `extra` context, and the exception attached to it (if any). -/
structure LogRecord where
  sink : String
  level : Nat
  message : String
  extra : PyDict PyVal
  exc : Option PyException
deriving Repr, Inhabited

structure LoggerState where
  handlers : List Handler
  nextId : Nat
  records : List LogRecord

/-- Emit one message: every attached handler whose threshold allows the level
receives a record, in handler order. -/
def emit (st : LoggerState) (level : Nat) (msg : String) (extra : PyDict PyVal)
    (exc : Option PyException) : LoggerState :=
  { st with records := st.records ++ st.handlers.filterMap (fun h =>
      if h.minLevel ≤ level then some ⟨h.sink, level, msg, extra, exc⟩ else none) }

/-- `logger.add(sink, level=...)`: attach a handler, returning its id. -/
def addHandler (st : LoggerState) (sink : String) (minLevel : Nat) : Nat × LoggerState :=
  (st.nextId, { st with
      handlers := st.handlers ++ [⟨st.nextId, sink, minLevel⟩],
      nextId := st.nextId + 1 })

/-- `logger.remove(id)`. -/
def removeHandler (st : LoggerState) (hid : Nat) : LoggerState :=
  { st with handlers := st.handlers.filter (fun h => h.id != hid) }

/-- Result of one `handle_exception` call: the logger state afterwards, and
`some 1` when panic mode called `sys.exit(1)`. -/
structure HandleResult where
  logger : LoggerState
  exitCode : Option Nat

/-- The context dict bound to the primary emission
(`exception_handling.py` lines 38-104): the built context, then `tags` when
resolved and truthy (line 94), then the applied `add_metadata` merged in with
`|=` when it is a dict (lines 98-102). -/
def primaryContext (config : DynelConfig) (funcName : String) (e : PyException)
    (env : HostEnv) : PyDict PyVal :=
  let function_config := pyGet? config.EXCEPTION_CONFIG funcName
  let ctx := buildContext config.CUSTOM_CONTEXT_LEVEL env
  let ctx :=
    match resolvedTags function_config e with
    | some ts => if ts = [] then ctx else pySet ctx "tags" (.list (ts.map PyVal.str))
    | none => ctx
  match (appliedBehaviors function_config e).add_metadata with
  | some (.dict m) => pyUnion ctx m
  | _ => ctx

/-- Line 104: the warning emitted when the applied `add_metadata` is present
but not a dict. -/
def metadataWarnStep (funcName : String) (applied : BehaviorActions)
    (st : LoggerState) : LoggerState :=
  match applied.add_metadata with
  | some (.dict _) => st
  | some _ =>
      emit st levelWARNING
        ("Invalid add_metadata format for " ++ funcName ++ ". Expected dict. Skipping.") [] none
  | none => st

/-- Lines 113-152: the `log_to_specific_file` behavior.  When the action
carries a string path and `logger.add` succeeds, attach an ERROR-level
handler on that path, emit the mirrored record (which goes to every attached
handler, the new one included — the code notes "this time it will go to the
specific file as well as existing handlers"), emit the follow-up info
message, and remove the handler (the `finally` of line 148); when
`logger.add` raises, emit the error of line 147 with no handler to remove;
when the action's value is not a string, emit the warning of line 152. -/
def auxFileStep (funcName : String) (applied : BehaviorActions) (log_message : String)
    (ctx : PyDict PyVal) (e : PyException) (auxAddOk : Bool) (st : LoggerState) : LoggerState :=
  match applied.log_to_specific_file with
  | some (.str target) =>
      if auxAddOk then
        let added := addHandler st target levelERROR
        let st := added.2
        let st := emit st levelERROR ("[Mirrored to " ++ target ++ "] " ++ log_message) ctx (some e)
        let st := emit st levelINFO
          ("Logged details for error in " ++ funcName ++ " to " ++ target) [] none
        removeHandler st added.1
      else
        emit st levelERROR
          ("Failed to log to specific file " ++ target ++ " for " ++ funcName) [] none
  | some _ =>
      emit st levelWARNING
        ("Invalid log_to_specific_file path for " ++ funcName ++ ". Expected string. Skipping.") [] none
  | none => st

/-- `handle_exception`, `exception_handling.py` lines 12-157.  `funcName` is
the caller name obtained by `inspect.stack()[1][3]`; `env` carries the host
probes of lines 38-62; `auxAddOk` is false when `logger.add` for the
auxiliary sink raises (with `enqueue=True` the asynchronous sink writes
themselves do not raise here).  The warning of line 104 (non-dict
`add_metadata`) is emitted before the primary record, matching the source
order. -/
def handle_exception (config : DynelConfig) (funcName : String) (e : PyException)
    (env : HostEnv) (auxAddOk : Bool) (st : LoggerState) : HandleResult :=
  let function_config := pyGet? config.EXCEPTION_CONFIG funcName
  let log_message := composeLogMessage funcName function_config e
  let applied := appliedBehaviors function_config e
  let ctx := primaryContext config funcName e env
  let st := metadataWarnStep funcName applied st
  let st := emit st levelERROR log_message ctx (some e)
  let st := auxFileStep funcName applied log_message ctx e auxAddOk st
  if config.PANIC_MODE then
    let st := emit st levelCRITICAL
      ("PANIC MODE ENABLED: Exiting after handling exception in " ++ funcName ++ ".") [] none
    { logger := st, exitCode := some 1 }
  else
    { logger := st, exitCode := none }

/-! ### Config parsing (`config.py`) -/

/-- The warnings `config.py` records while loading (each names the data it
identifies in its message). -/
inductive ConfigWarning where
  | invalidExcNameType (funcKey : String)
  | unresolvedException (excName : String) (funcKey : String)
  | nonDictFunctionConfig (funcKey : String)
  | nonDictBehaviors (funcKey : String)
  | nonDictBehaviorDef (behaviorKey funcKey : String)
  | invalidAddMetadata (behaviorKey funcKey : String)
  | invalidLogFile (behaviorKey funcKey : String)
deriving DecidableEq, Repr

/-- The process environment `_load_exception_classes` resolves names in
(lines 234-243): `resolve n = some c` when `n` names, via the builtins lookup
or a `module.ClassName` import, a `BaseException` subclass whose resolved
class is `c`; `none` on an unresolvable name, an import error, or a resolved
symbol that is not an exception subtype (all of which the code catches at
lines 244-249). -/
structure ResolveEnv where
  resolve : String → Option String

/-- `_load_exception_classes`, `config.py` lines 228-251: resolve each listed
name, keeping the successes in order and recording one warning (naming the
entry and the owning function key) per failure. -/
def _load_exception_classes (env : ResolveEnv) (key : String) (exceptions : List PyVal) :
    List String × List ConfigWarning :=
  exceptions.foldl (fun acc v =>
    match v with
    | .str s =>
        match env.resolve s with
        | some cls => (acc.1 ++ [cls], acc.2)
        | none => (acc.1, acc.2 ++ [ConfigWarning.unresolvedException s key])
    | _ => (acc.1, acc.2 ++ [ConfigWarning.invalidExcNameType key])) ([], [])

/-- `_parse_behaviors`, `config.py` lines 186-226: a non-dict behaviors
config degrades to `\x7b\x7d` with a warning; for each behavior key with a dict
definition, keep a validated `add_metadata` (must be a dict) and
`log_to_specific_file` (must be a string with non-blank strip, which is
stored stripped); a definition with no valid action is dropped (info-level
note only). -/
def _parse_behaviors (func_key : String) (behaviors_config : PyVal) :
    PyDict BehaviorActions × List ConfigWarning :=
  match behaviors_config with
  | .dict entries =>
      entries.foldl (fun acc p =>
        match p.2 with
        | .dict bd =>
            let am :=
              match pyGet? bd "add_metadata" with
              | some (.dict m) => (some (PyVal.dict m), ([] : List ConfigWarning))
              | some _ => (none, [ConfigWarning.invalidAddMetadata p.1 func_key])
              | none => (none, [])
            let lf :=
              match pyGet? bd "log_to_specific_file" with
              | some (.str s) =>
                  if s.trim = "" then (none, [ConfigWarning.invalidLogFile p.1 func_key])
                  else (some (PyVal.str s.trim), ([] : List ConfigWarning))
              | some _ => (none, [ConfigWarning.invalidLogFile p.1 func_key])
              | none => (none, [])
            if am.1.isSome ∨ lf.1.isSome then
              (pySet acc.1 p.1 ⟨am.1, lf.1⟩, acc.2 ++ am.2 ++ lf.2)
            else
              (acc.1, acc.2 ++ am.2 ++ lf.2)
        | _ => (acc.1, acc.2 ++ [ConfigWarning.nonDictBehaviorDef p.1 func_key])) ([], [])
  | _ => ([], [ConfigWarning.nonDictBehaviors func_key])

/-- Python `str()` restricted to the values DynEL configs hold; the container
renderings abstract the CPython reprs, which no claim observes. -/
def pyStr : PyVal → String
  | .str s => s
  | .int n => toString n
  | .bool b => if b then "True" else "False"
  | .null => "None"
  | .list _ => "[...]"
  | .dict _ => "\x7b...\x7d"

/-- `isinstance(value, dict)`, with the dict payload on success. -/
def asDict? : PyVal → Option (PyDict PyVal)
  | .dict d => some d
  | _ => none

/-- Python iteration: lists yield their items, strings their characters,
dicts their keys; numbers, booleans and `None` raise `TypeError`. -/
def pyIter? : PyVal → Option (List PyVal)
  | .list l => some l
  | .str s => some (s.toList.map (fun c => .str (String.singleton c)))
  | .dict d => some (d.map (fun p => .str p.1))
  | _ => none

/-- `isinstance(tag, (str, int, float))` (`config.py` line 181); Python bools
are ints. -/
def isTagLike : PyVal → Bool
  | .str _ => true
  | .int _ => true
  | .bool _ => true
  | _ => false

/-- How `config.py` can fail to load: `FileNotFoundError` from
`_find_config_file` (line 138); `ValueError` for a file that cannot be
decoded or read or whose root is not a dict (lines 152-163); and an uncaught
`TypeError` escaping `_load_exception_classes` or the tags comprehension when
an `exceptions`/`tags` value is not iterable (nothing catches that one). -/
inductive ConfigError where
  | notFound
  | parseError
  | typeError
deriving DecidableEq, Repr

/-- `_parse_exception_config`, `config.py` lines 165-184: skip the reserved
`debug_mode` key; skip (with a warning) any non-dict function config;
otherwise resolve the exception names, parse behaviors, normalize tags to
strings (dropping non-`(str, int, float)` items) and `custom_message` via
`str()`.  Iterating a non-iterable `exceptions` or `tags` value raises
`TypeError` and aborts the whole parse. -/
def _parse_exception_config (env : ResolveEnv) :
    PyDict PyVal → Except ConfigError (PyDict RuleEntry × List ConfigWarning)
  | [] => .ok ([], [])
  | (key, value) :: rest =>
    if key = "debug_mode" then _parse_exception_config env rest
    else
      match asDict? value with
      | some v =>
          match pyIter? ((pyGet? v "exceptions").getD (.list [])) with
          | none => .error .typeError
          | some excItems =>
            let ec := _load_exception_classes env key excItems
            let pb := _parse_behaviors key ((pyGet? v "behaviors").getD (.dict []))
            match pyIter? ((pyGet? v "tags").getD (.list [])) with
            | none => .error .typeError
            | some tagItems =>
              let entry : RuleEntry :=
                { exceptions := ec.1,
                  custom_message := pyStr ((pyGet? v "custom_message").getD (.str "")),
                  tags := (tagItems.filter isTagLike).map pyStr,
                  behaviors := pb.1 }
              match _parse_exception_config env rest with
              | .error err => .error err
              | .ok parsedRest =>
                  .ok ((key, entry) :: parsedRest.1, ec.2 ++ pb.2 ++ parsedRest.2)
      | none =>
          match _parse_exception_config env rest with
          | .error err => .error err
          | .ok parsedRest =>
              .ok (parsedRest.1, ConfigWarning.nonDictFunctionConfig key :: parsedRest.2)

/-- A config file on disk either fails to decode in its format (or to be
read), or decodes to a Python value. -/
inductive FileParse where
  | parseFail
  | parsed (v : PyVal)

/-- The file system seen by `_find_config_file`: which paths exist and what
loading each one yields. -/
def FileSystem := String → Option FileParse

/-- `_find_config_file`, `config.py` lines 133-138: try
`<stem>.<ext>` for each extension in order and return the first existing
path. -/
def _find_config_file (fs : FileSystem) (stem : String) (exts : List String) : Option String :=
  (exts.find? (fun ext => (fs (stem ++ "." ++ ext)).isSome)).map (fun ext => stem ++ "." ++ ext)

/-- The default `supported_extensions` of `load_exception_config`
(line 120), in preference order. -/
def supported_extensions : List String := ["json", "yaml", "yml", "toml"]

/-- `load_exception_config`, `config.py` lines 114-131, with the default
extension list: find the first existing `<stem>.<ext>`; decode it (decode or
read failure is a `ValueError`); require a dict root (else `ValueError`);
then parse the rule table.  The root-level `debug_mode` / format keys update
verbosity and rendering settings no claim observes and are not returned. -/
def load_exception_config (fs : FileSystem) (env : ResolveEnv) (stem : String) :
    Except ConfigError (PyDict RuleEntry × List ConfigWarning) :=
  match _find_config_file fs stem supported_extensions with
  | none => .error .notFound
  | some file =>
      match fs file with
      | none => .error .parseError
      | some .parseFail => .error .parseError
      | some (.parsed v) =>
          match asDict? v with
          | some d => _parse_exception_config env d
          | none => .error .parseError

/-- `DynelConfig.CONTEXT_LEVEL_MAP`, `config.py` lines 98-105. -/
def CONTEXT_LEVEL_MAP : PyDict ContextLevel :=
  [("min", ContextLevel.MINIMAL), ("minimal", ContextLevel.MINIMAL),
   ("med", ContextLevel.MEDIUM), ("medium", ContextLevel.MEDIUM),
   ("det", ContextLevel.DETAILED), ("detailed", ContextLevel.DETAILED)]

/-- What `DynelConfig.__init__` produces: the constructed configuration plus
every warning the constructor records (it records none — there is no logging
call in `__init__`, lines 79-112). -/
structure InitResult where
  config : DynelConfig
  warnings : List ConfigWarning

/-- `DynelConfig.__init__`, `config.py` lines 79-112: the context level is
looked up in `CONTEXT_LEVEL_MAP` with `dict.get`, silently defaulting to
MINIMAL for unrecognized strings. -/
def DynelConfig.init (context_level : String) (debug formatting panic_mode : Bool) :
    InitResult :=
  { config :=
    { CUSTOM_CONTEXT_LEVEL := (pyGet? CONTEXT_LEVEL_MAP context_level).getD ContextLevel.MINIMAL,
      DEBUG_MODE := debug,
      FORMATTING_ENABLED := formatting,
      PANIC_MODE := panic_mode,
      EXCEPTION_CONFIG := [] },
    warnings := [] }

/-! ### Wrap engine (`exception_handling.py` lines 160-256) -/

/-- The outcome of calling an unwrapped Python callable at some argument. -/
inductive CallResult (β : Type) where
  | ok (b : β)
  | exc (e : PyException)

/-- The outcome of calling the wrapped version: the original result, the
original exception re-raised, or process exit (panic mode). -/
inductive WrapOutcome (β : Type) where
  | ok (b : β)
  | reraised (e : PyException)
  | exited (code : Nat)

/-- One member as wrapped by `module_exception_handler`: the composition of
loguru's `logger.catch(onerror=..., reraise=True)` (an external collaborator:
it runs the body, and on an exception invokes `onerror` with it) with the
`_onerror_handler` of lines 194-199, which calls `handle_exception` and then
raises the same exception instance.  `lookupName` is the caller name
`handle_exception`'s own stack inspection yields at that call site. -/
def wrapped {α β : Type} (config : DynelConfig) (lookupName : String)
    (f : α → CallResult β) (env : HostEnv) (auxAddOk : Bool) (st : LoggerState) (a : α) :
    WrapOutcome β × LoggerState :=
  match f a with
  | .ok b => (.ok b, st)
  | .exc e =>
      let r := handle_exception config lookupName e env auxAddOk st
      match r.exitCode with
      | some code => (.exited code, r.logger)
      | none => (.reraised e, r.logger)

/-! ### Concrete fixtures for the auxiliary-file scenario -/

/-- A configuration whose entry for `f` matches ValueError and mirrors it to
`aux.log` via a type-specific `log_to_specific_file` behavior. -/
def auxCfg : DynelConfig :=
  { CUSTOM_CONTEXT_LEVEL := ContextLevel.MINIMAL, DEBUG_MODE := false,
    FORMATTING_ENABLED := true, PANIC_MODE := false,
    EXCEPTION_CONFIG := [("f",
      { exceptions := ["ValueError"], custom_message := "", tags := [],
        behaviors := [("ValueError", ⟨none, some (PyVal.str "aux.log")⟩)] })] }

/-- The same configuration with no behaviors at all. -/
def noAuxCfg : DynelConfig :=
  { CUSTOM_CONTEXT_LEVEL := ContextLevel.MINIMAL, DEBUG_MODE := false,
    FORMATTING_ENABLED := true, PANIC_MODE := false,
    EXCEPTION_CONFIG := [("f",
      { exceptions := ["ValueError"], custom_message := "", tags := [],
        behaviors := [] })] }

/-- A raised `ValueError("boom")`. -/
def valueError : PyException :=
  ⟨"ValueError", ["ValueError", "Exception", "BaseException"], "boom"⟩

/-- A fixed host environment. -/
def fixedEnv : HostEnv := ⟨"TS", .unavailable, ⟨none, none⟩⟩

/-- A logger with one primary INFO-level sink `dynel.json`. -/
def primaryLogger : LoggerState := ⟨[⟨0, "dynel.json", 20⟩], 1, []⟩

/-! ## Theorems -/

/-! ### Dict lemmas shared by several claims -/

theorem pyGet?_pySet_self {V : Type} (d : PyDict V) (k : String) (v : V) :
    pyGet? (pySet d k v) k = some v := by
  rw [pySet]
  split
  next h =>
    induction d with
    | nil => simp at h
    | cons p rest ih =>
      by_cases hp : (p.1 == k) = true
      · simp [pyGet?, List.find?, hp]
      · simp only [List.any_cons, Bool.or_eq_true] at h
        have h' : rest.any (fun p => p.1 == k) = true := by
          rcases h with h | h
          · exact absurd h hp
          · exact h
        have hrec := ih h'
        simp only [pyGet?, List.map_cons, if_neg hp] at hrec ⊢
        rwa [List.find?_cons_of_neg _ (by simpa using hp)]
  next h =>
    induction d with
    | nil => simp [pyGet?, List.find?]
    | cons p rest ih =>
      simp only [List.any_cons, Bool.or_eq_true, not_or] at h
      have hrec := ih (by simpa using h.2)
      simp only [pyGet?, List.cons_append] at hrec ⊢
      rwa [List.find?_cons_of_neg _ (by simpa using h.1)]

theorem pyGet?_pySet_other {V : Type} (d : PyDict V) (k k' : String) (v : V)
    (hne : k' ≠ k) : pyGet? (pySet d k v) k' = pyGet? d k' := by
  have hk' : (k == k') = false := by simpa using fun hh => hne hh.symm
  rw [pySet]
  split
  next h =>
    clear h
    induction d with
    | nil => rfl
    | cons p rest ih =>
      by_cases hp : (p.1 == k) = true
      · have hpk : p.1 = k := by simpa using hp
        simp only [pyGet?, List.map_cons, if_pos hp] at ih ⊢
        simp only [List.find?, hk', hpk]
        exact ih
      · simp only [pyGet?, List.map_cons, if_neg hp] at ih ⊢
        simp only [List.find?]
        cases hq : (p.1 == k') <;> simp only []
        exact ih
  next h =>
    clear h
    simp only [pyGet?, List.find?_append, List.find?, hk']
    cases (List.find? (fun p => p.1 == k') d) <;> simp

theorem pyGet?_pyUnion_notMem {V : Type} (d m : PyDict V) (k : String)
    (h : pyHasKey m k = false) : pyGet? (pyUnion d m) k = pyGet? d k := by
  induction m generalizing d with
  | nil => rfl
  | cons p rest ih =>
    simp only [pyHasKey, List.any_cons, Bool.or_eq_false_iff] at h
    have hne : k ≠ p.1 := by
      intro hh
      simp [hh] at h
    rw [pyUnion, List.foldl_cons]
    have := ih (pySet d p.1 p.2) (by simpa [pyHasKey] using h.2)
    rw [pyUnion] at this
    rw [this, pyGet?_pySet_other _ _ _ _ hne]

theorem pyGet?_pyUnion_mem {V : Type} (d m : PyDict V) (k : String) (v : V)
    (hnd : (m.map Prod.fst).Nodup) (hmem : (k, v) ∈ m) :
    pyGet? (pyUnion d m) k = some v := by
  induction m generalizing d with
  | nil => simp at hmem
  | cons p rest ih =>
    simp only [List.map_cons, List.nodup_cons] at hnd
    rw [pyUnion, List.foldl_cons]
    rcases List.mem_cons.mp hmem with heq | hrest
    · subst heq
      have hnot : pyHasKey rest k = false := by
        simp only [pyHasKey, List.any_eq_false]
        intro q hq hqk
        exact hnd.1 (List.mem_map.mpr ⟨q, hq, by simpa using hqk⟩)
      have := pyGet?_pyUnion_notMem (pySet d k v) rest k hnot
      rw [pyUnion] at this
      rw [this, pyGet?_pySet_self]
    · have := ih hnd.2 hrest (d := pySet d p.1 p.2)
      rwa [pyUnion] at this

/-- C6: the built context at MINIMAL is exactly the timestamp entry and never
holds a `local_vars` key; at MEDIUM and DETAILED it always holds `local_vars`
(the string rendering of the caller's locals, or a placeholder when
unavailable); at DETAILED it additionally holds the free-memory estimate and
CPU count (or the `system_info_error` placeholder when that probe fails) and
the environment snapshot (or the `env_details_error` placeholder), each
failing probe degrading to a placeholder key — `buildContext` is total, so no
error propagates. -/
theorem context_level_contents (env : HostEnv) :
    (buildContext ContextLevel.MINIMAL env = [("timestamp", PyVal.str env.timestamp)]) ∧
    (pyHasKey (buildContext ContextLevel.MINIMAL env) "local_vars" = false) ∧
    (∀ level, (level = ContextLevel.MEDIUM ∨ level = ContextLevel.DETAILED) →
      pyGet? (buildContext level env) "local_vars" =
        some (PyVal.str (localVarsString env.localVars))) ∧
    (∀ m c, env.sys.memCpu = some (m, c) →
      pyGet? (buildContext ContextLevel.DETAILED env) "free_memory" = some (PyVal.int m) ∧
      pyGet? (buildContext ContextLevel.DETAILED env) "cpu_count" =
        some (match c with | some n => PyVal.int n | none => PyVal.null)) ∧
    (env.sys.memCpu = none →
      pyGet? (buildContext ContextLevel.DETAILED env) "system_info_error" =
        some (PyVal.str "Could not retrieve some system info (memory/CPU)")) ∧
    (∀ ed, env.sys.env = some ed →
      pyGet? (buildContext ContextLevel.DETAILED env) "env_details" =
        some (PyVal.dict (ed.map (fun q => (q.1, PyVal.str q.2))))) ∧
    (env.sys.env = none →
      pyGet? (buildContext ContextLevel.DETAILED env) "env_details_error" =
        some (PyVal.str "Could not retrieve environment variables")) := by
  obtain ⟨ts, lv, mc, ep⟩ := env
  refine ⟨by simp [buildContext], by simp [buildContext, pyHasKey], ?_, ?_, ?_, ?_, ?_⟩
  · rintro level (rfl | rfl) <;>
      cases mc <;> cases ep <;>
      simp [buildContext, pySet, pyUnion, pyGet?]
  · rintro m c h
    cases ep <;> simp_all [buildContext, pySet, pyUnion, pyGet?]
  · rintro h
    cases ep <;> simp_all [buildContext, pySet, pyUnion, pyGet?]
  · rintro ed h
    cases mc <;> simp_all [buildContext, pySet, pyUnion, pyGet?]
  · rintro h
    cases mc <;> simp_all [buildContext, pySet, pyUnion, pyGet?]

/-- Witness for C6 at a concrete environment with a failing memory/CPU probe
and an available environment snapshot, discharging the probe hypotheses. -/
theorem context_level_contents_witness :
    pyGet? (buildContext ContextLevel.DETAILED
      ⟨"2024-01-01T00:00:00+00:00", .unavailable, ⟨none, some [("PATH", "/usr/bin")]⟩⟩)
      "local_vars" = some (PyVal.str "Local variables information unavailable") ∧
    pyGet? (buildContext ContextLevel.DETAILED
      ⟨"2024-01-01T00:00:00+00:00", .unavailable, ⟨none, some [("PATH", "/usr/bin")]⟩⟩)
      "system_info_error" = some (PyVal.str "Could not retrieve some system info (memory/CPU)") ∧
    pyGet? (buildContext ContextLevel.DETAILED
      ⟨"2024-01-01T00:00:00+00:00", .unavailable, ⟨none, some [("PATH", "/usr/bin")]⟩⟩)
      "env_details" = some (PyVal.dict [("PATH", PyVal.str "/usr/bin")]) :=
  ⟨(context_level_contents _).2.2.1 ContextLevel.DETAILED (Or.inr rfl),
   (context_level_contents _).2.2.2.2.1 rfl,
   (context_level_contents _).2.2.2.2.2.1 [("PATH", "/usr/bin")] rfl⟩

/-- C2: the rule entry's `exceptions` list is scanned in declaration order
and the first listed type for which the instance check holds wins; on a match
the resolved custom message, tags and type-specific behaviors all come from
the matched entry; in particular an entry listing ValueError before TypeError
resolves an exception that is an instance of both to ValueError.  Resolution
is a pure function of the entry and the instance, hence deterministic across
runs. -/
theorem first_match_declaration_order (fc : RuleEntry) (e : PyException) (c : String) :
    (matchedType (some fc) e = some c ↔
      isInstanceOf e c = true ∧
      ∃ l₁ l₂, fc.exceptions = l₁ ++ c :: l₂ ∧ ∀ x ∈ l₁, isInstanceOf e x = false) ∧
    (matchedType (some fc) e = some c →
      resolvedCustomMessage (some fc) e = some fc.custom_message ∧
      resolvedTags (some fc) e = some fc.tags ∧
      specificBehaviorsOf (some fc) e =
        some ((pyGet? fc.behaviors e.className).getD BehaviorActions.empty)) ∧
    (fc.exceptions = ["ValueError", "TypeError"] →
      isInstanceOf e "ValueError" = true → isInstanceOf e "TypeError" = true →
      matchedType (some fc) e = some "ValueError") := by
  refine ⟨?_, ?_, ?_⟩
  · rw [matchedType, List.find?_eq_some]
    simp [Bool.not_eq_true']
  · intro h
    rw [matchedType] at h
    simp [resolvedCustomMessage, resolvedTags, specificBehaviorsOf, h]
  · intro hexc h1 h2
    rw [matchedType, hexc]
    simp [List.find?, h1]

/-- Witness for C2: a subclass of both ValueError and TypeError resolves to
ValueError, the first listed type. -/
theorem first_match_declaration_order_witness :
    matchedType
      (some { exceptions := ["ValueError", "TypeError"], custom_message := "cm",
              tags := ["t"], behaviors := [] })
      ⟨"SubError", ["SubError", "ValueError", "TypeError", "Exception", "BaseException"], "boom"⟩
      = some "ValueError" :=
  (first_match_declaration_order
      { exceptions := ["ValueError", "TypeError"], custom_message := "cm",
        tags := ["t"], behaviors := [] }
      ⟨"SubError", ["SubError", "ValueError", "TypeError", "Exception", "BaseException"], "boom"⟩
      "ValueError").2.2 rfl (by decide) (by decide)

/-- C5: on a matched exception type the applied behavior actions are the
shallow merge of the entry's default behaviors then the type-specific ones —
an action key present in the specific bundle overrides the default's key of
the same name, and an absent one falls back to the default's — and when
`add_metadata` carries a dict, merging it into a context with `|=` makes the
metadata value win over any pre-existing context key of the same name while
leaving other keys untouched. -/
theorem behavior_merge_and_metadata_override (fc : RuleEntry) (e : PyException) (c : String)
    (hmatch : matchedType (some fc) e = some c) :
    (appliedBehaviors (some fc) e =
      BehaviorActions.merge (defaultBehaviorsOf (some fc))
        ((pyGet? fc.behaviors e.className).getD BehaviorActions.empty)) ∧
    (∀ v, ((pyGet? fc.behaviors e.className).getD BehaviorActions.empty).add_metadata = some v →
      (appliedBehaviors (some fc) e).add_metadata = some v) ∧
    (((pyGet? fc.behaviors e.className).getD BehaviorActions.empty).add_metadata = none →
      (appliedBehaviors (some fc) e).add_metadata =
        (defaultBehaviorsOf (some fc)).add_metadata) ∧
    (∀ v, ((pyGet? fc.behaviors e.className).getD BehaviorActions.empty).log_to_specific_file = some v →
      (appliedBehaviors (some fc) e).log_to_specific_file = some v) ∧
    (((pyGet? fc.behaviors e.className).getD BehaviorActions.empty).log_to_specific_file = none →
      (appliedBehaviors (some fc) e).log_to_specific_file =
        (defaultBehaviorsOf (some fc)).log_to_specific_file) ∧
    (∀ m, (appliedBehaviors (some fc) e).add_metadata = some (PyVal.dict m) →
      ∀ (ctx : PyDict PyVal) k v, (m.map Prod.fst).Nodup → (k, v) ∈ m →
        pyGet? (pyUnion ctx m) k = some v) ∧
    (∀ m, (appliedBehaviors (some fc) e).add_metadata = some (PyVal.dict m) →
      ∀ (ctx : PyDict PyVal) k, pyHasKey m k = false →
        pyGet? (pyUnion ctx m) k = pyGet? ctx k) := by
  rw [matchedType] at hmatch
  have hspec : specificBehaviorsOf (some fc) e =
      some ((pyGet? fc.behaviors e.className).getD BehaviorActions.empty) := by
    simp [specificBehaviorsOf, hmatch]
  refine ⟨?_, ?_, ?_, ?_, ?_, ?_, ?_⟩
  · rw [appliedBehaviors, hspec]
    rfl
  · intro v hv
    simp [appliedBehaviors, hspec, BehaviorActions.merge, hv, Option.orElse]
  · intro hv
    simp [appliedBehaviors, hspec, BehaviorActions.merge, hv, Option.orElse]
  · intro v hv
    simp [appliedBehaviors, hspec, BehaviorActions.merge, hv, Option.orElse]
  · intro hv
    simp [appliedBehaviors, hspec, BehaviorActions.merge, hv, Option.orElse]
  · intro m _ ctx k v hnd hmem
    exact pyGet?_pyUnion_mem ctx m k v hnd hmem
  · intro m _ ctx k hk
    exact pyGet?_pyUnion_notMem ctx m k hk

/-- Witness for C5: an entry whose default bundle defines both actions and
whose ValueError bundle redefines only `add_metadata` — the specific metadata
wins, the default auxiliary file survives, and merging the metadata into a
context overrides the pre-existing key. -/
theorem behavior_merge_and_metadata_override_witness :
    (appliedBehaviors
      (some { exceptions := ["ValueError"], custom_message := "", tags := [],
              behaviors :=
                [("default", ⟨some (PyVal.dict [("k", PyVal.str "d")]), some (PyVal.str "d.log")⟩),
                 ("ValueError", ⟨some (PyVal.dict [("k", PyVal.str "s")]), none⟩)] })
      ⟨"ValueError", ["ValueError", "Exception", "BaseException"], "x"⟩).add_metadata =
      some (PyVal.dict [("k", PyVal.str "s")]) ∧
    (appliedBehaviors
      (some { exceptions := ["ValueError"], custom_message := "", tags := [],
              behaviors :=
                [("default", ⟨some (PyVal.dict [("k", PyVal.str "d")]), some (PyVal.str "d.log")⟩),
                 ("ValueError", ⟨some (PyVal.dict [("k", PyVal.str "s")]), none⟩)] })
      ⟨"ValueError", ["ValueError", "Exception", "BaseException"], "x"⟩).log_to_specific_file =
      some (PyVal.str "d.log") ∧
    pyGet? (pyUnion [("k", PyVal.str "old"), ("t", PyVal.str "x")] [("k", PyVal.str "s")]) "k" =
      some (PyVal.str "s") := by
  have h := behavior_merge_and_metadata_override
    { exceptions := ["ValueError"], custom_message := "", tags := [],
      behaviors :=
        [("default", ⟨some (PyVal.dict [("k", PyVal.str "d")]), some (PyVal.str "d.log")⟩),
         ("ValueError", ⟨some (PyVal.dict [("k", PyVal.str "s")]), none⟩)] }
    ⟨"ValueError", ["ValueError", "Exception", "BaseException"], "x"⟩
    "ValueError" rfl
  refine ⟨h.2.1 _ rfl, ?_, ?_⟩
  · rw [h.2.2.2.2.1 rfl]; rfl
  · exact h.2.2.2.2.2.1 _ (h.2.1 _ rfl) _ "k" _ (by simp) (by simp)

/-- C1 counterexample: a rule entry for `f` listing only ValueError, with a
`behaviors.default` bundle carrying `add_metadata`, routed against a
KeyError (matching none of the listed types): the merged behavior actions
are the default bundle, not empty, and its metadata key `k` is merged into
the context of the emitted primary record — refuting the claim that the
merged behavior actions are empty on a non-matching exception. -/
theorem unmatched_default_behaviors_applied_cex :
    (appliedBehaviors
      (some { exceptions := ["ValueError"], custom_message := "msg", tags := ["t"],
              behaviors := [("default", ⟨some (PyVal.dict [("k", PyVal.str "v")]), none⟩)] })
      ⟨"KeyError", ["KeyError", "LookupError", "Exception", "BaseException"], "boom"⟩).add_metadata
      = some (PyVal.dict [("k", PyVal.str "v")]) ∧
    pyGet?
      ((handle_exception
        { CUSTOM_CONTEXT_LEVEL := ContextLevel.MINIMAL, DEBUG_MODE := false,
          FORMATTING_ENABLED := true, PANIC_MODE := false,
          EXCEPTION_CONFIG := [("f",
            { exceptions := ["ValueError"], custom_message := "msg", tags := ["t"],
              behaviors := [("default", ⟨some (PyVal.dict [("k", PyVal.str "v")]), none⟩)] })] }
        "f"
        ⟨"KeyError", ["KeyError", "LookupError", "Exception", "BaseException"], "boom"⟩
        ⟨"TS", .unavailable, ⟨none, none⟩⟩
        true
        ⟨[⟨0, "dynel.json", 20⟩], 1, []⟩).logger.records.headI.extra) "k"
      = some (PyVal.str "v") :=
  ⟨rfl, rfl⟩

/-- C1 amended: when a function has a rule entry but the raised exception
matches none of its listed types, the resolved custom message and tags are
absent and the log message has no custom suffix, but the merged behavior
actions equal the entry's `behaviors.default` bundle — which is applied (its
`add_metadata` merged, its `log_to_specific_file` honored) rather than
empty. -/
theorem unmatched_resolution_uses_default_bundle (fc : RuleEntry) (e : PyException)
    (funcName : String) (hmatch : matchedType (some fc) e = none) :
    resolvedCustomMessage (some fc) e = none ∧
    resolvedTags (some fc) e = none ∧
    specificBehaviorsOf (some fc) e = none ∧
    composeLogMessage funcName (some fc) e = "Exception caught in " ++ funcName ∧
    appliedBehaviors (some fc) e = defaultBehaviorsOf (some fc) := by
  rw [matchedType] at hmatch
  refine ⟨?_, ?_, ?_, ?_, ?_⟩
  · simp [resolvedCustomMessage, hmatch]
  · simp [resolvedTags, hmatch]
  · simp [specificBehaviorsOf, hmatch]
  · simp [composeLogMessage, resolvedCustomMessage, hmatch]
  · simp only [appliedBehaviors, specificBehaviorsOf, hmatch]
    cases hd : defaultBehaviorsOf (some fc) with
    | mk am lf =>
        simp [BehaviorActions.merge, BehaviorActions.empty, Option.orElse]

/-- Witness for C1's amended theorem at the counterexample's rule entry and
exception. -/
theorem unmatched_resolution_uses_default_bundle_witness :
    resolvedCustomMessage
      (some { exceptions := ["ValueError"], custom_message := "msg", tags := ["t"],
              behaviors := [("default", ⟨some (PyVal.dict [("k", PyVal.str "v")]), none⟩)] })
      ⟨"KeyError", ["KeyError", "LookupError", "Exception", "BaseException"], "boom"⟩ = none ∧
    appliedBehaviors
      (some { exceptions := ["ValueError"], custom_message := "msg", tags := ["t"],
              behaviors := [("default", ⟨some (PyVal.dict [("k", PyVal.str "v")]), none⟩)] })
      ⟨"KeyError", ["KeyError", "LookupError", "Exception", "BaseException"], "boom"⟩ =
      defaultBehaviorsOf
        (some { exceptions := ["ValueError"], custom_message := "msg", tags := ["t"],
                behaviors := [("default", ⟨some (PyVal.dict [("k", PyVal.str "v")]), none⟩)] }) := by
  have h := unmatched_resolution_uses_default_bundle
    { exceptions := ["ValueError"], custom_message := "msg", tags := ["t"],
      behaviors := [("default", ⟨some (PyVal.dict [("k", PyVal.str "v")]), none⟩)] }
    ⟨"KeyError", ["KeyError", "LookupError", "Exception", "BaseException"], "boom"⟩
    "f" rfl
  exact ⟨h.1, h.2.2.2.2⟩

/-- C4: the primary message is `"Exception caught in " ++ funcName`, and gets
the `" - Custom Message: "` suffix exactly when a type matched and the
matched entry's custom message is truthy (non-empty — Python falsiness of the
parsed default `""` means no custom message was resolved); resolved truthy
tags appear in the emitted context under `"tags"` (provided the applied
metadata does not itself redefine that key, which the merge would let win);
and the concrete scenario — entry `F` for ValueError with message
`"bad input"` and tags `["x"]`, routing `ValueError("boom")` — yields the
primary record with message
`"Exception caught in F - Custom Message: bad input"` and tags `["x"]`. -/
theorem primary_message_composition (funcName : String) (e : PyException) (fc : RuleEntry)
    (config : DynelConfig) (env : HostEnv)
    (hfc : pyGet? config.EXCEPTION_CONFIG funcName = some fc) :
    (∀ c, matchedType (some fc) e = some c → fc.custom_message ≠ "" →
      composeLogMessage funcName (some fc) e =
        "Exception caught in " ++ funcName ++ " - Custom Message: " ++ fc.custom_message) ∧
    (matchedType (some fc) e = none ∨ fc.custom_message = "" →
      composeLogMessage funcName (some fc) e = "Exception caught in " ++ funcName) ∧
    (∀ c, matchedType (some fc) e = some c → fc.tags ≠ [] →
      (∀ m, (appliedBehaviors (some fc) e).add_metadata = some (PyVal.dict m) →
        pyHasKey m "tags" = false) →
      pyGet? (primaryContext config funcName e env) "tags" =
        some (PyVal.list (fc.tags.map PyVal.str))) ∧
    (pyGet?
      ((handle_exception
        { CUSTOM_CONTEXT_LEVEL := ContextLevel.MINIMAL, DEBUG_MODE := true,
          FORMATTING_ENABLED := true, PANIC_MODE := false,
          EXCEPTION_CONFIG := [("F",
            { exceptions := ["ValueError"], custom_message := "bad input", tags := ["x"],
              behaviors := [] })] }
        "F"
        ⟨"ValueError", ["ValueError", "Exception", "BaseException"], "boom"⟩
        ⟨"TS", .unavailable, ⟨none, none⟩⟩
        true
        ⟨[⟨0, "dynel.json", 20⟩], 1, []⟩).logger.records.headI.extra) "tags"
        = some (PyVal.list [PyVal.str "x"]) ∧
     (handle_exception
        { CUSTOM_CONTEXT_LEVEL := ContextLevel.MINIMAL, DEBUG_MODE := true,
          FORMATTING_ENABLED := true, PANIC_MODE := false,
          EXCEPTION_CONFIG := [("F",
            { exceptions := ["ValueError"], custom_message := "bad input", tags := ["x"],
              behaviors := [] })] }
        "F"
        ⟨"ValueError", ["ValueError", "Exception", "BaseException"], "boom"⟩
        ⟨"TS", .unavailable, ⟨none, none⟩⟩
        true
        ⟨[⟨0, "dynel.json", 20⟩], 1, []⟩).logger.records.headI.message
        = "Exception caught in F - Custom Message: bad input") := by
  refine ⟨?_, ?_, ?_, rfl, rfl⟩
  · intro c hc hne
    rw [composeLogMessage]
    rw [matchedType] at hc
    simp [resolvedCustomMessage, hc, hne]
  · rintro (hnone | hempty)
    · rw [composeLogMessage]
      rw [matchedType] at hnone
      simp [resolvedCustomMessage, hnone]
    · rw [composeLogMessage]
      cases hm : resolvedCustomMessage (some fc) e with
      | none => rfl
      | some cm =>
          have : cm = fc.custom_message := by
            rw [resolvedCustomMessage] at hm
            rcases hfind : fc.exceptions.find? (fun c => isInstanceOf e c) with _ | c'
            · rw [hfind] at hm; cases hm
            · rw [hfind] at hm
              exact (Option.some.injEq _ _ ▸ hm).symm
          rw [this, hempty]
          simp
  · intro c hc htags hmeta
    rw [primaryContext, hfc]
    have htagres : resolvedTags (some fc) e = some fc.tags := by
      rw [matchedType] at hc
      simp [resolvedTags, hc]
    rw [htagres]
    simp only [if_neg htags]
    rcases hmd : (appliedBehaviors (some fc) e).add_metadata with _ | v
    · exact pyGet?_pySet_self _ _ _
    · cases v with
      | dict m =>
          rw [pyGet?_pyUnion_notMem _ _ _ (hmeta m hmd)]
          exact pyGet?_pySet_self _ _ _
      | str s => exact pyGet?_pySet_self _ _ _
      | int n => exact pyGet?_pySet_self _ _ _
      | bool b => exact pyGet?_pySet_self _ _ _
      | null => exact pyGet?_pySet_self _ _ _
      | list l => exact pyGet?_pySet_self _ _ _

/-- Witness for C4 at the rule entry and exception of its concrete
scenario. -/
theorem primary_message_composition_witness :
    composeLogMessage "F"
      (some { exceptions := ["ValueError"], custom_message := "bad input", tags := ["x"],
              behaviors := [] })
      ⟨"ValueError", ["ValueError", "Exception", "BaseException"], "boom"⟩ =
      "Exception caught in F - Custom Message: bad input" ∧
    pyGet?
      (primaryContext
        { CUSTOM_CONTEXT_LEVEL := ContextLevel.MINIMAL, DEBUG_MODE := true,
          FORMATTING_ENABLED := true, PANIC_MODE := false,
          EXCEPTION_CONFIG := [("F",
            { exceptions := ["ValueError"], custom_message := "bad input", tags := ["x"],
              behaviors := [] })] }
        "F"
        ⟨"ValueError", ["ValueError", "Exception", "BaseException"], "boom"⟩
        ⟨"TS", .unavailable, ⟨none, none⟩⟩) "tags" =
      some (PyVal.list [PyVal.str "x"]) := by
  have h := primary_message_composition "F"
    ⟨"ValueError", ["ValueError", "Exception", "BaseException"], "boom"⟩
    { exceptions := ["ValueError"], custom_message := "bad input", tags := ["x"],
      behaviors := [] }
    { CUSTOM_CONTEXT_LEVEL := ContextLevel.MINIMAL, DEBUG_MODE := true,
      FORMATTING_ENABLED := true, PANIC_MODE := false,
      EXCEPTION_CONFIG := [("F",
        { exceptions := ["ValueError"], custom_message := "bad input", tags := ["x"],
          behaviors := [] })] }
    ⟨"TS", .unavailable, ⟨none, none⟩⟩
    rfl
  exact ⟨h.1 "ValueError" rfl (by decide),
         h.2.2.1 "ValueError" rfl (by decide) (fun m hm => by cases hm)⟩

/-- C3 counterexample: with one primary sink `dynel.json` and an entry
mirroring ValueError to `aux.log`, routing one exception writes three records
to the primary destination (the main record, the mirrored record — which
goes to every attached handler — and the follow-up info record), while the
same routing without the behavior writes one; so the auxiliary emission does
change the primary destination's record count, refuting that conjunct.  The
auxiliary destination itself receives exactly one (mirrored) record. -/
theorem mirrored_emission_changes_primary_count_cex :
    ((handle_exception auxCfg "f" valueError fixedEnv true primaryLogger).logger.records.countP
        (fun r => r.sink == "dynel.json")) = 3 ∧
    ((handle_exception noAuxCfg "f" valueError fixedEnv true primaryLogger).logger.records.countP
        (fun r => r.sink == "dynel.json")) = 1 ∧
    ((handle_exception auxCfg "f" valueError fixedEnv true primaryLogger).logger.records.countP
        (fun r => r.sink == "aux.log")) = 1 ∧
    ((handle_exception auxCfg "f" valueError fixedEnv true primaryLogger).logger.records.countP
        (fun r => r.sink == "dynel.json"
          && r.message == "[Mirrored to aux.log] Exception caught in f")) = 1 := by
  refine ⟨rfl, rfl, rfl, rfl⟩

theorem countP_deliver_ne (hs : List Handler) (t : String) (h : ∀ x ∈ hs, x.sink ≠ t)
    (level : Nat) (msg : String) (extra : PyDict PyVal) (exc : Option PyException) :
    (hs.filterMap (fun hd => if hd.minLevel ≤ level then
        some (⟨hd.sink, level, msg, extra, exc⟩ : LogRecord) else none)).countP
      (fun r => r.sink == t) = 0 := by
  induction hs with
  | nil => rfl
  | cons x xs ih =>
    have hx : (x.sink == t) = false := by
      simpa using h x (by simp)
    have hxs := ih (fun y hy => h y (by simp [hy]))
    simp only [List.filterMap_cons]
    by_cases hml : x.minLevel ≤ level
    · rw [if_pos hml]
      simp [List.countP_cons, hxs, hx]
    · rw [if_neg hml]
      exact hxs

theorem filter_ne_id_of_lt (hs : List Handler) (n : Nat) (h : ∀ x ∈ hs, x.id < n) :
    hs.filter (fun x => x.id != n) = hs := by
  apply List.filter_eq_self.mpr
  intro x hx
  simpa using Nat.ne_of_lt (h x hx)

theorem emit_handlers (st : LoggerState) (level : Nat) (msg : String)
    (extra : PyDict PyVal) (exc : Option PyException) :
    (emit st level msg extra exc).handlers = st.handlers := rfl

theorem emit_nextId (st : LoggerState) (level : Nat) (msg : String)
    (extra : PyDict PyVal) (exc : Option PyException) :
    (emit st level msg extra exc).nextId = st.nextId := rfl

theorem emit_records (st : LoggerState) (level : Nat) (msg : String)
    (extra : PyDict PyVal) (exc : Option PyException) :
    (emit st level msg extra exc).records = st.records ++ st.handlers.filterMap
      (fun h => if h.minLevel ≤ level then
        some (⟨h.sink, level, msg, extra, exc⟩ : LogRecord) else none) := rfl

theorem metadataWarnStep_handlers (fn : String) (applied : BehaviorActions)
    (st : LoggerState) : (metadataWarnStep fn applied st).handlers = st.handlers := by
  rw [metadataWarnStep]
  split <;> rfl

theorem metadataWarnStep_nextId (fn : String) (applied : BehaviorActions)
    (st : LoggerState) : (metadataWarnStep fn applied st).nextId = st.nextId := by
  rw [metadataWarnStep]
  split <;> rfl

theorem metadataWarnStep_countP (fn : String) (applied : BehaviorActions)
    (st : LoggerState) (t : String) (hsink : ∀ h ∈ st.handlers, h.sink ≠ t) :
    (metadataWarnStep fn applied st).records.countP (fun r => r.sink == t) =
      st.records.countP (fun r => r.sink == t) := by
  rw [metadataWarnStep]
  split
  · rfl
  · simp [emit, List.countP_append, countP_deliver_ne _ _ hsink]
  · rfl

theorem auxFileStep_handlers (fn : String) (applied : BehaviorActions) (msg : String)
    (ctx : PyDict PyVal) (e : PyException) (auxOk : Bool) (st : LoggerState)
    (hids : ∀ h ∈ st.handlers, h.id < st.nextId) :
    (auxFileStep fn applied msg ctx e auxOk st).handlers = st.handlers := by
  rw [auxFileStep]
  split
  · cases auxOk with
    | false => rfl
    | true =>
        simp only [if_pos]
        simp only [removeHandler, emit, addHandler, List.filter_append]
        rw [filter_ne_id_of_lt _ _ hids]
        simp
  · rfl
  · rfl

theorem auxFileStep_shape (fn : String) (applied : BehaviorActions) (msg : String)
    (ctx : PyDict PyVal) (e : PyException) (st : LoggerState) (t : String)
    (hlog : applied.log_to_specific_file = some (PyVal.str t))
    (hids : ∀ h ∈ st.handlers, h.id < st.nextId) :
    auxFileStep fn applied msg ctx e true st =
      { handlers := st.handlers,
        nextId := st.nextId + 1,
        records := st.records
          ++ (st.handlers.filterMap (fun hd => if hd.minLevel ≤ levelERROR then
                some (⟨hd.sink, levelERROR, "[Mirrored to " ++ t ++ "] " ++ msg, ctx,
                  some e⟩ : LogRecord) else none)
              ++ [⟨t, levelERROR, "[Mirrored to " ++ t ++ "] " ++ msg, ctx, some e⟩])
          ++ (st.handlers.filterMap (fun hd => if hd.minLevel ≤ levelINFO then
                some (⟨hd.sink, levelINFO, "Logged details for error in " ++ fn ++ " to " ++ t,
                  [], none⟩ : LogRecord) else none)) } := by
  rw [auxFileStep, hlog]
  simp [removeHandler, emit, addHandler, List.filter_append, List.filterMap_append,
    filter_ne_id_of_lt st.handlers st.nextId hids, levelERROR, levelINFO,
    List.append_assoc]

/-- C3 amended: when the applied behaviors carry `log_to_specific_file` with
path `t` (not a pre-existing sink) and the auxiliary attach succeeds, routing
adds exactly one record at the auxiliary destination — the mirrored record,
with the mirror-prefixed message and the same context; the auxiliary handler
is released before routing returns on every exit path (handlers are restored
whether or not the attach succeeds); but the mirrored record is also
delivered to every pre-existing ERROR-admitting handler, so the auxiliary
emission does increase the primary destination's record count for that
exception (it does not leave it unchanged, as the code itself notes). -/
theorem aux_sink_scoped_single_mirror (config : DynelConfig) (funcName : String)
    (e : PyException) (env : HostEnv) (st : LoggerState) (t : String)
    (hlog : (appliedBehaviors (pyGet? config.EXCEPTION_CONFIG funcName) e).log_to_specific_file
      = some (PyVal.str t))
    (hids : ∀ h ∈ st.handlers, h.id < st.nextId)
    (hsink : ∀ h ∈ st.handlers, h.sink ≠ t) :
    ((handle_exception config funcName e env true st).logger.records.countP
        (fun r => r.sink == t))
      = st.records.countP (fun r => r.sink == t) + 1 ∧
    ((⟨t, levelERROR,
        "[Mirrored to " ++ t ++ "] " ++
          composeLogMessage funcName (pyGet? config.EXCEPTION_CONFIG funcName) e,
        primaryContext config funcName e env, some e⟩ : LogRecord) ∈
      (handle_exception config funcName e env true st).logger.records) ∧
    (∀ auxOk, (handle_exception config funcName e env auxOk st).logger.handlers
      = st.handlers) ∧
    (∀ h ∈ st.handlers, h.minLevel ≤ levelERROR →
      (⟨h.sink, levelERROR,
          "[Mirrored to " ++ t ++ "] " ++
            composeLogMessage funcName (pyGet? config.EXCEPTION_CONFIG funcName) e,
          primaryContext config funcName e env, some e⟩ : LogRecord) ∈
        (handle_exception config funcName e env true st).logger.records) := by
  have h1h := metadataWarnStep_handlers funcName
    (appliedBehaviors (pyGet? config.EXCEPTION_CONFIG funcName) e) st
  have h1n := metadataWarnStep_nextId funcName
    (appliedBehaviors (pyGet? config.EXCEPTION_CONFIG funcName) e) st
  have h1c := metadataWarnStep_countP funcName
    (appliedBehaviors (pyGet? config.EXCEPTION_CONFIG funcName) e) st t hsink
  have hids2 : ∀ h ∈ (emit (metadataWarnStep funcName
      (appliedBehaviors (pyGet? config.EXCEPTION_CONFIG funcName) e) st)
      levelERROR (composeLogMessage funcName (pyGet? config.EXCEPTION_CONFIG funcName) e)
      (primaryContext config funcName e env) (some e)).handlers,
      h.id < (emit (metadataWarnStep funcName
        (appliedBehaviors (pyGet? config.EXCEPTION_CONFIG funcName) e) st)
        levelERROR (composeLogMessage funcName (pyGet? config.EXCEPTION_CONFIG funcName) e)
        (primaryContext config funcName e env) (some e)).nextId := by
    simp only [emit, h1h, h1n]
    exact hids
  have hshape := auxFileStep_shape funcName
    (appliedBehaviors (pyGet? config.EXCEPTION_CONFIG funcName) e)
    (composeLogMessage funcName (pyGet? config.EXCEPTION_CONFIG funcName) e)
    (primaryContext config funcName e env) e
    (emit (metadataWarnStep funcName
      (appliedBehaviors (pyGet? config.EXCEPTION_CONFIG funcName) e) st)
      levelERROR (composeLogMessage funcName (pyGet? config.EXCEPTION_CONFIG funcName) e)
      (primaryContext config funcName e env) (some e)) t hlog hids2
  refine ⟨?_, ?_, ?_, ?_⟩
  · by_cases hp : config.PANIC_MODE = true <;>
      simp only [handle_exception, hp, if_true, if_false, Bool.false_eq_true] <;>
      rw [hshape] <;>
      simp [emit_records, emit_handlers, h1h, h1c, List.countP_append,
        countP_deliver_ne _ _ hsink]
  · by_cases hp : config.PANIC_MODE = true <;>
      simp only [handle_exception, hp, if_true, if_false, Bool.false_eq_true] <;>
      rw [hshape] <;>
      simp [emit_records, List.mem_append]
  · intro auxOk
    have hhand := auxFileStep_handlers funcName
      (appliedBehaviors (pyGet? config.EXCEPTION_CONFIG funcName) e)
      (composeLogMessage funcName (pyGet? config.EXCEPTION_CONFIG funcName) e)
      (primaryContext config funcName e env) e auxOk
      (emit (metadataWarnStep funcName
        (appliedBehaviors (pyGet? config.EXCEPTION_CONFIG funcName) e) st)
        levelERROR (composeLogMessage funcName (pyGet? config.EXCEPTION_CONFIG funcName) e)
        (primaryContext config funcName e env) (some e)) hids2
    by_cases hp : config.PANIC_MODE = true
    · simp only [handle_exception, hp, if_true]
      rw [emit_handlers, hhand, emit_handlers, h1h]
    · simp only [handle_exception, hp, Bool.false_eq_true, if_false]
      rw [hhand, emit_handlers, h1h]
  · intro h hmem hml
    have hmir : (⟨h.sink, levelERROR,
        "[Mirrored to " ++ t ++ "] " ++
          composeLogMessage funcName (pyGet? config.EXCEPTION_CONFIG funcName) e,
        primaryContext config funcName e env, some e⟩ : LogRecord) ∈
        (List.filterMap (fun hd => if hd.minLevel ≤ levelERROR then
            some (⟨hd.sink, levelERROR,
              "[Mirrored to " ++ t ++ "] " ++
                composeLogMessage funcName (pyGet? config.EXCEPTION_CONFIG funcName) e,
              primaryContext config funcName e env, some e⟩ : LogRecord) else none)
          ((emit (metadataWarnStep funcName
              (appliedBehaviors (pyGet? config.EXCEPTION_CONFIG funcName) e) st)
              levelERROR (composeLogMessage funcName (pyGet? config.EXCEPTION_CONFIG funcName) e)
              (primaryContext config funcName e env) (some e)).handlers)) := by
      rw [emit_handlers, h1h]
      exact List.mem_filterMap.mpr ⟨h, hmem, by rw [if_pos hml]⟩
    by_cases hp : config.PANIC_MODE = true
    · simp only [handle_exception, hp, if_true]
      rw [hshape]
      exact List.mem_append.mpr (Or.inl (List.mem_append.mpr (Or.inl
        (List.mem_append.mpr (Or.inr (List.mem_append.mpr (Or.inl hmir)))))))
    · simp only [handle_exception, hp, Bool.false_eq_true, if_false]
      rw [hshape]
      exact List.mem_append.mpr (Or.inl (List.mem_append.mpr (Or.inr
        (List.mem_append.mpr (Or.inl hmir)))))

/-- Witness for C3's amended theorem at the concrete auxiliary-file
configuration: one new record at `aux.log` and handlers restored. -/
theorem aux_sink_scoped_single_mirror_witness :
    ((handle_exception auxCfg "f" valueError fixedEnv true primaryLogger).logger.records.countP
        (fun r => r.sink == "aux.log")) = 1 ∧
    (handle_exception auxCfg "f" valueError fixedEnv false primaryLogger).logger.handlers
      = primaryLogger.handlers := by
  have h := aux_sink_scoped_single_mirror auxCfg "f" valueError fixedEnv primaryLogger
    "aux.log" rfl
    (by intro x hx; simp only [primaryLogger, List.mem_singleton] at hx; rw [hx]; decide)
    (by intro x hx; simp only [primaryLogger, List.mem_singleton] at hx; rw [hx]; decide)
  exact ⟨h.1, h.2.2.1 false⟩

theorem asDict?_eq_some {v : PyVal} {d : PyDict PyVal} (h : asDict? v = some d) :
    v = PyVal.dict d := by
  cases v with
  | dict d' => cases h; rfl
  | str s => cases h
  | int n => cases h
  | bool b => cases h
  | null => cases h
  | list l => cases h

theorem asDict?_eq_none (v : PyVal) : asDict? v = none ↔ ∀ d, v ≠ PyVal.dict d := by
  cases v with
  | dict d =>
      simp only [asDict?]
      constructor
      · intro h; cases h
      · intro h; exact absurd rfl (h d)
  | str s => simp [asDict?]
  | int n => simp [asDict?]
  | bool b => simp [asDict?]
  | null => simp [asDict?]
  | list l => simp [asDict?]

theorem parse_exception_config_classify (env : ResolveEnv) (d : PyDict PyVal) :
    _parse_exception_config env d ≠ Except.error ConfigError.notFound ∧
    _parse_exception_config env d ≠ Except.error ConfigError.parseError := by
  induction d with
  | nil => exact ⟨by simp [_parse_exception_config], by simp [_parse_exception_config]⟩
  | cons p rest ih =>
    obtain ⟨key, value⟩ := p
    by_cases hk : key = "debug_mode"
    · simpa [_parse_exception_config, hk] using ih
    · rcases hres : _parse_exception_config env rest with err | r
      · have h1 : err ≠ ConfigError.notFound := fun h => ih.1 (by rw [hres, h])
        have h2 : err ≠ ConfigError.parseError := fun h => ih.2 (by rw [hres, h])
        rcases hv : asDict? value with _ | v
        · constructor <;> simp [_parse_exception_config, hk, hv, hres, h1, h2]
        · rcases hex : pyIter? ((pyGet? v "exceptions").getD (.list [])) with _ | excItems
          · constructor <;> simp [_parse_exception_config, hk, hv, hex]
          · rcases htg : pyIter? ((pyGet? v "tags").getD (.list [])) with _ | tagItems
            · constructor <;> simp [_parse_exception_config, hk, hv, hex, htg]
            · constructor <;> simp [_parse_exception_config, hk, hv, hex, htg, hres, h1, h2]
      · rcases hv : asDict? value with _ | v
        · constructor <;> simp [_parse_exception_config, hk, hv, hres]
        · rcases hex : pyIter? ((pyGet? v "exceptions").getD (.list [])) with _ | excItems
          · constructor <;> simp [_parse_exception_config, hk, hv, hex]
          · rcases htg : pyIter? ((pyGet? v "tags").getD (.list [])) with _ | tagItems
            · constructor <;> simp [_parse_exception_config, hk, hv, hex, htg]
            · constructor <;> simp [_parse_exception_config, hk, hv, hex, htg, hres]

/-- C7 counterexample: `dynel_config.json` exists, decodes, and its root is a
mapping, yet the load does not return normally: the entry's `exceptions`
value is the non-iterable `5`, so iterating it raises an uncaught
`TypeError` — refuting "in all other cases the load returns normally". -/
theorem load_noniterable_exceptions_cex :
    ((fun p => if p = "dynel_config.json" then
        some (FileParse.parsed (.dict [("F", .dict [("exceptions", .int 5)])])) else none :
      FileSystem) "dynel_config.json" =
        some (FileParse.parsed (.dict [("F", .dict [("exceptions", .int 5)])]))) ∧
    load_exception_config
      (fun p => if p = "dynel_config.json" then
        some (FileParse.parsed (.dict [("F", .dict [("exceptions", .int 5)])])) else none)
      ⟨fun _ => none⟩ "dynel_config" = Except.error ConfigError.typeError :=
  ⟨rfl, rfl⟩

/-- C7 amended: the load raises the not-found error exactly when no
`<stem>.<ext>` exists for any of the four extensions tried in order (the
first existing file wins); given the found file, it raises the parse error
exactly when that file fails to decode or its decoded root is not a mapping;
and in all remaining cases (found file decodes to a mapping) the load reduces
to parsing the rule table, which either returns normally or raises an
uncaught TypeError when an entry's `exceptions`/`tags` value is not
iterable. -/
theorem load_error_classification (fs : FileSystem) (env : ResolveEnv) (stem : String) :
    (load_exception_config fs env stem = Except.error ConfigError.notFound ↔
      ∀ ext ∈ supported_extensions, fs (stem ++ "." ++ ext) = none) ∧
    (∀ file, _find_config_file fs stem supported_extensions = some file →
      (load_exception_config fs env stem = Except.error ConfigError.parseError ↔
        fs file = some FileParse.parseFail ∨
        (∃ v, fs file = some (FileParse.parsed v) ∧ ∀ d, v ≠ PyVal.dict d))) ∧
    (∀ ext l₁ l₂, supported_extensions = l₁ ++ ext :: l₂ →
      (fs (stem ++ "." ++ ext)).isSome = true →
      (∀ x ∈ l₁, fs (stem ++ "." ++ x) = none) →
      _find_config_file fs stem supported_extensions = some (stem ++ "." ++ ext)) ∧
    (∀ file v, _find_config_file fs stem supported_extensions = some file →
      fs file = some (FileParse.parsed (PyVal.dict v)) →
      load_exception_config fs env stem = _parse_exception_config env v) ∧
    (∀ v : PyDict PyVal, (∃ r, _parse_exception_config env v = Except.ok r) ∨
      _parse_exception_config env v = Except.error ConfigError.typeError) := by
  have hfind : _find_config_file fs stem supported_extensions = none ↔
      ∀ ext ∈ supported_extensions, fs (stem ++ "." ++ ext) = none := by
    rw [_find_config_file, Option.map_eq_none', List.find?_eq_none]
    constructor
    · intro h ext hm
      have := h ext hm
      simpa [Option.isSome_iff_ne_none] using this
    · intro h ext hm
      simp [h ext hm]
  refine ⟨?_, ?_, ?_, ?_, ?_⟩
  · constructor
    · intro hload
      rcases hf : _find_config_file fs stem supported_extensions with _ | file
      · exact hfind.mp hf
      · exfalso
        simp only [load_exception_config, hf] at hload
        rcases hfs : fs file with _ | fp
        · simp [hfs] at hload
        · cases fp with
          | parseFail => simp [hfs] at hload
          | parsed v =>
              rcases hv : asDict? v with _ | dv
              · simp [hfs, hv] at hload
              · simp only [hfs, hv] at hload
                exact absurd hload (parse_exception_config_classify env dv).1
    · intro h
      simp [load_exception_config, hfind.mpr h]
  · intro file hf
    have hsome : (fs file).isSome = true := by
      rw [_find_config_file] at hf
      rcases hfq : List.find? (fun ext => (fs (stem ++ "." ++ ext)).isSome)
          supported_extensions with _ | ext
      · rw [hfq] at hf; cases hf
      · rw [hfq] at hf
        have hp := List.find?_some hfq
        have : stem ++ "." ++ ext = file := by simpa using hf
        rwa [this] at hp
    simp only [load_exception_config, hf]
    rcases hfs : fs file with _ | fp
    · rw [hfs] at hsome; simp at hsome
    · cases fp with
      | parseFail => simp [hfs]
      | parsed v =>
          rcases hv : asDict? v with _ | dv
          · simp only [hfs, hv]
            constructor
            · intro _
              exact Or.inr ⟨v, rfl, (asDict?_eq_none v).mp hv⟩
            · intro _; trivial
          · simp only [hfs, hv]
            constructor
            · intro hload
              exact absurd hload (parse_exception_config_classify env dv).2
            · rintro (h | ⟨w, hw, hnd⟩)
              · exact absurd h (by simp)
              · simp only [Option.some.injEq, FileParse.parsed.injEq] at hw
                exact absurd (by rw [← hw]; exact asDict?_eq_some hv) (hnd dv)
  · intro ext l₁ l₂ hsplit hsome hbefore
    rw [_find_config_file]
    have : List.find? (fun x => (fs (stem ++ "." ++ x)).isSome) supported_extensions
        = some ext := by
      rw [List.find?_eq_some]
      refine ⟨hsome, l₁, l₂, hsplit, ?_⟩
      intro x hx
      simp [hbefore x hx]
    rw [this]
    rfl
  · intro file v hf hfs
    simp [load_exception_config, hf, hfs, asDict?]
  · intro v
    rcases hres : _parse_exception_config env v with err | r
    · cases err with
      | notFound => exact absurd hres (parse_exception_config_classify env v).1
      | parseError => exact absurd hres (parse_exception_config_classify env v).2
      | typeError => exact Or.inr rfl
    · exact Or.inl ⟨r, rfl⟩

/-- Witness for C7's amended classification: with only `dynel_config.yaml`
present and failing to decode, the find step picks it (json missing, yaml
first thereafter) and the load reports the parse error. -/
theorem load_error_classification_witness :
    load_exception_config
      (fun p => if p = "dynel_config.yaml" then some FileParse.parseFail else none)
      ⟨fun _ => none⟩ "dynel_config" = Except.error ConfigError.parseError ∧
    _find_config_file
      (fun p => if p = "dynel_config.yaml" then some FileParse.parseFail else none)
      "dynel_config" supported_extensions = some "dynel_config.yaml" := by
  have h := load_error_classification
    (fun p => if p = "dynel_config.yaml" then some FileParse.parseFail else none)
    ⟨fun _ => none⟩ "dynel_config"
  have hfind := h.2.2.1 "yaml" ["json"] ["yml", "toml"] rfl (by rfl)
    (by intro x hx; simp only [List.mem_singleton] at hx; rw [hx]; rfl)
  exact ⟨(h.2.1 "dynel_config.yaml" hfind).mpr (Or.inl (by rfl)), hfind⟩

theorem load_exception_classes_go (env : ResolveEnv) (key : String) (names : List PyVal)
    (acc : List String × List ConfigWarning) :
    (names.foldl (fun acc v =>
      match v with
      | PyVal.str s =>
          match env.resolve s with
          | some cls => (acc.1 ++ [cls], acc.2)
          | none => (acc.1, acc.2 ++ [ConfigWarning.unresolvedException s key])
      | _ => (acc.1, acc.2 ++ [ConfigWarning.invalidExcNameType key])) acc) =
    (acc.1 ++ names.filterMap (fun v =>
        match v with
        | PyVal.str s => env.resolve s
        | _ => none),
     acc.2 ++ names.filterMap (fun v =>
        match v with
        | PyVal.str s =>
            match env.resolve s with
            | some _ => none
            | none => some (ConfigWarning.unresolvedException s key)
        | _ => some (ConfigWarning.invalidExcNameType key))) := by
  induction names generalizing acc with
  | nil => simp
  | cons v rest ih =>
    rw [List.foldl_cons]
    cases v with
    | str s =>
        rcases hr : env.resolve s with _ | cls <;>
          simp only [hr] <;> rw [ih] <;> simp [hr]
    | int n => rw [ih]; simp
    | bool b => rw [ih]; simp
    | null => rw [ih]; simp
    | list l => rw [ih]; simp
    | dict d => rw [ih]; simp

/-- C8: name resolution over a configured exception list keeps exactly the
resolvable names, in order, and records one warning per failure naming both
the offending entry and the owning function key — an unresolvable name never
aborts the load; concretely, a config whose function `G` lists the
unresolvable `"NoSuchError"` before `"ValueError"` loads successfully with
`G`'s exception list excluding it, the other function `H` kept, and the
warning naming `"NoSuchError"` and `"G"` recorded. -/
theorem bad_exception_name_skipped_with_warning (env : ResolveEnv) (key : String)
    (names : List PyVal) :
    ((_load_exception_classes env key names).1 =
      names.filterMap (fun v =>
        match v with
        | PyVal.str s => env.resolve s
        | _ => none)) ∧
    (∀ s, PyVal.str s ∈ names → env.resolve s = none →
      ConfigWarning.unresolvedException s key ∈ (_load_exception_classes env key names).2) ∧
    (load_exception_config
      (fun p => if p = "dynel_config.json" then
        some (FileParse.parsed (.dict [
          ("G", .dict [("exceptions", .list [.str "NoSuchError", .str "ValueError"])]),
          ("H", .dict [])])) else none)
      ⟨fun s => if s = "ValueError" then some "ValueError" else none⟩
      "dynel_config" =
      Except.ok
        ([("G", { exceptions := ["ValueError"], custom_message := "", tags := [],
                  behaviors := [] }),
          ("H", { exceptions := [], custom_message := "", tags := [], behaviors := [] })],
         [ConfigWarning.unresolvedException "NoSuchError" "G"])) := by
  refine ⟨?_, ?_, rfl⟩
  · rw [_load_exception_classes, load_exception_classes_go]
    simp
  · intro s hs hr
    rw [_load_exception_classes, load_exception_classes_go]
    simp only [List.nil_append]
    exact List.mem_filterMap.mpr ⟨PyVal.str s, hs, by simp [hr]⟩

/-- Witness for C8 at the scenario's resolution environment: the unresolvable
name is excluded from the classes and its warning is recorded. -/
theorem bad_exception_name_skipped_with_warning_witness :
    (_load_exception_classes ⟨fun s => if s = "ValueError" then some "ValueError" else none⟩
      "G" [PyVal.str "NoSuchError", PyVal.str "ValueError"]).1 = ["ValueError"] ∧
    ConfigWarning.unresolvedException "NoSuchError" "G" ∈
      (_load_exception_classes ⟨fun s => if s = "ValueError" then some "ValueError" else none⟩
        "G" [PyVal.str "NoSuchError", PyVal.str "ValueError"]).2 := by
  have h := bad_exception_name_skipped_with_warning
    ⟨fun s => if s = "ValueError" then some "ValueError" else none⟩
    "G" [PyVal.str "NoSuchError", PyVal.str "ValueError"]
  exact ⟨by rw [h.1]; rfl,
         h.2.1 "NoSuchError" (by simp) (by rfl)⟩

theorem handle_exception_exitCode (config : DynelConfig) (funcName : String)
    (e : PyException) (env : HostEnv) (auxAddOk : Bool) (st : LoggerState) :
    (handle_exception config funcName e env auxAddOk st).exitCode =
      if config.PANIC_MODE then some 1 else none := by
  by_cases hp : config.PANIC_MODE = true <;> simp [handle_exception, hp]

/-- C9: the wrapped version of a callable returns the original result
unchanged on success (with no routing and no logging side effect); on an
exception it routes the exception through `handle_exception` and then
re-raises the very same exception instance — unless panic mode terminates
the process (exit code 1) after routing; and the wrapper never swallows: a
normal return from the wrapped version can only come from a normal return of
the original. -/
theorem wrapper_routes_and_reraises {α β : Type} (config : DynelConfig) (lookupName : String)
    (f : α → CallResult β) (env : HostEnv) (auxAddOk : Bool) (st : LoggerState) (a : α) :
    (∀ b, f a = CallResult.ok b →
      wrapped config lookupName f env auxAddOk st a = (WrapOutcome.ok b, st)) ∧
    (∀ e, f a = CallResult.exc e → config.PANIC_MODE = false →
      wrapped config lookupName f env auxAddOk st a =
        (WrapOutcome.reraised e,
         (handle_exception config lookupName e env auxAddOk st).logger)) ∧
    (∀ e, f a = CallResult.exc e → config.PANIC_MODE = true →
      wrapped config lookupName f env auxAddOk st a =
        (WrapOutcome.exited 1,
         (handle_exception config lookupName e env auxAddOk st).logger)) ∧
    (∀ b st', wrapped config lookupName f env auxAddOk st a = (WrapOutcome.ok b, st') →
      f a = CallResult.ok b) := by
  refine ⟨?_, ?_, ?_, ?_⟩
  · intro b hb
    simp [wrapped, hb]
  · intro e he hp
    simp [wrapped, he, handle_exception_exitCode, hp]
  · intro e he hp
    simp [wrapped, he, handle_exception_exitCode, hp]
  · intro b st' h
    rcases hf : f a with b' | e
    · simp only [wrapped, hf] at h
      rw [Prod.mk.injEq, WrapOutcome.ok.injEq] at h
      rw [h.1]
    · exfalso
      simp only [wrapped, hf] at h
      rcases hx : (handle_exception config lookupName e env auxAddOk st).exitCode
          with _ | code <;> rw [hx] at h <;> simp at h

/-- Witness for C9: a callable raising `ValueError` gets it routed and
re-raised unchanged under a non-panic configuration, and a succeeding
callable returns its result unchanged. -/
theorem wrapper_routes_and_reraises_witness :
    wrapped noAuxCfg "f" (fun _ : Unit => (CallResult.exc valueError : CallResult Nat)) fixedEnv true
        primaryLogger () =
      (WrapOutcome.reraised valueError,
       (handle_exception noAuxCfg "f" valueError fixedEnv true primaryLogger).logger) ∧
    wrapped noAuxCfg "f" (fun _ : Unit => CallResult.ok (7 : Nat)) fixedEnv true
        primaryLogger () =
      (WrapOutcome.ok 7, primaryLogger) := by
  have h1 := wrapper_routes_and_reraises noAuxCfg "f"
    (fun _ : Unit => (CallResult.exc valueError : CallResult Nat)) fixedEnv true primaryLogger ()
  have h2 := wrapper_routes_and_reraises noAuxCfg "f"
    (fun _ : Unit => CallResult.ok (7 : Nat)) fixedEnv true primaryLogger ()
  exact ⟨h1.2.1 valueError rfl rfl, h2.1 7 rfl⟩

/-- C10: constructing a configuration with a context-level string outside the
six recognized aliases silently selects MINIMAL as the active context level —
no error is raised (the constructor is total) and no warning is recorded. -/
theorem unknown_context_level_defaults_minimal (s : String)
    (h : s ∉ ["min", "minimal", "med", "medium", "det", "detailed"]) (d f p : Bool) :
    (DynelConfig.init s d f p).config.CUSTOM_CONTEXT_LEVEL = ContextLevel.MINIMAL ∧
    (DynelConfig.init s d f p).warnings = [] := by
  refine ⟨?_, rfl⟩
  simp only [List.mem_cons, List.not_mem_nil, or_false, not_or] at h
  obtain ⟨h1, h2, h3, h4, h5, h6⟩ := h
  have hmap : pyGet? CONTEXT_LEVEL_MAP s = none := by
    rw [pyGet?, CONTEXT_LEVEL_MAP, Option.map_eq_none', List.find?_eq_none]
    intro x hx
    simp only [List.mem_cons, List.not_mem_nil, or_false] at hx
    rcases hx with rfl | rfl | rfl | rfl | rfl | rfl <;>
      simp only [beq_iff_eq] <;>
      first
        | exact fun hh => h1 hh.symm
        | exact fun hh => h2 hh.symm
        | exact fun hh => h3 hh.symm
        | exact fun hh => h4 hh.symm
        | exact fun hh => h5 hh.symm
        | exact fun hh => h6 hh.symm
  simp [DynelConfig.init, hmap]

/-- Witness for C10 at the concrete unrecognized string "bogus". -/
theorem unknown_context_level_defaults_minimal_witness :
    "bogus" ∉ ["min", "minimal", "med", "medium", "det", "detailed"] ∧
    ((DynelConfig.init "bogus" false true false).config.CUSTOM_CONTEXT_LEVEL = ContextLevel.MINIMAL ∧
     (DynelConfig.init "bogus" false true false).warnings = []) :=
  ⟨by decide, unknown_context_level_defaults_minimal "bogus" (by decide) false true false⟩

end DynEL
